import Mathlib

set_option maxHeartbeats 1000000

namespace ClareIA

/-! Shallow embedding of the ClareIA core pipelines: the format validator and
transcription normalizer (`app/core/transcriber.py`, `app/models/transcript.py`),
the summary extractor and its JSON-repair pipeline (`app/core/summarizer.py`,
`app/models/summary.py`), and the temperature handling (`app/core/config.py`). -/

/-- JSON values as produced by Python `json.loads`; objects keep key order.
Numbers are modelled as rationals (only finite decimals occur in the claims). -/
inductive Json where
  | null : Json
  | bool (b : Bool) : Json
  | num (q : ℚ) : Json
  | str (s : String) : Json
  | arr (elems : List Json) : Json
  | obj (fields : List (String × Json)) : Json

/-- `str.lower`, character-list based (ASCII case mapping, which covers every
input in the claims and the model-name domain). -/
def lowerStr (s : String) : String :=
  String.mk (s.data.map Char.toLower)

/-- `str.startswith`, character-list based. -/
def strStartsWith (s p : String) : Bool :=
  p.data.isPrefixOf s.data

/-- Python `str.strip()` with no argument: remove leading and trailing ASCII
whitespace (the inputs in the claims contain no exotic unicode spaces). -/
def isPySpace (c : Char) : Bool :=
  c = ' ' || c = '\t' || c = '\n' || c = '\r' || c = '\x0b' || c = '\x0c'

def pyStrip (s : String) : String :=
  String.mk (((s.data.dropWhile isPySpace).reverse.dropWhile isPySpace).reverse)

/-- Python truthiness of a JSON-shaped value: `None`, `False`, `0`, `""`,
`[]` and the empty dict are falsy, everything else truthy. -/
def Json.truthy : Json → Bool
  | .null => false
  | .bool b => b
  | .num q => decide (q ≠ 0)
  | .str s => decide (s ≠ "")
  | .arr l => !l.isEmpty
  | .obj l => !l.isEmpty

/-- Python `d.get(k)`: first binding wins (Python dict keys are unique). -/
def dictGet (fields : List (String × Json)) (key : String) : Option Json :=
  match fields with
  | [] => none
  | (k, v) :: rest => if k = key then some v else dictGet rest key

/-- Python `d.get(k) or default`: a falsy present value is replaced too. -/
def jsonOr (v : Option Json) (d : Json) : Json :=
  match v with
  | some x => if x.truthy then x else d
  | none => d

/-- JSON whitespace. -/
def isJsonWs (c : Char) : Bool :=
  c = ' ' || c = '\t' || c = '\n' || c = '\r'

def skipWs (cs : List Char) : List Char :=
  cs.dropWhile isJsonWs

/-- Body of a JSON string literal (after the opening quote): returns the decoded
characters and the remainder after the closing quote. The common one-character
escapes are modelled; `\u` sequences are not (none occur in any claim input). -/
def parseChars (fuel : Nat) (cs : List Char) : Option (List Char × List Char) :=
  match fuel, cs with
  | 0, _ => none
  | _, [] => none
  | f + 1, c :: rest =>
    if c = '"' then some ([], rest)
    else if c = '\\' then
      match rest with
      | [] => none
      | e :: rest2 =>
        let dec : Option Char :=
          if e = '"' then some '"'
          else if e = '\\' then some '\\'
          else if e = '/' then some '/'
          else if e = 'n' then some '\n'
          else if e = 't' then some '\t'
          else if e = 'r' then some '\r'
          else none
        match dec with
        | none => none
        | some d =>
          match parseChars f rest2 with
          | none => none
          | some (l, r) => some (d :: l, r)
    else
      match parseChars f rest with
      | none => none
      | some (l, r) => some (c :: l, r)

def digitsToNat (ds : List Char) : Nat :=
  ds.foldl (fun n c => 10 * n + (c.toNat - 48)) 0

/-- A JSON number: optional minus, integer digits, optional fraction digits.
Exponents are not modelled (none occur in any claim input); such inputs
simply fail to parse. -/
def parseNumber (cs : List Char) : Option (ℚ × List Char) :=
  let p : Bool × List Char :=
    match cs with
    | '-' :: r => (true, r)
    | r => (false, r)
  let neg := p.1
  let cs1 := p.2
  let ip := cs1.takeWhile Char.isDigit
  let rest1 := cs1.dropWhile Char.isDigit
  if ip = [] then none
  else
    let intVal : ℚ := (digitsToNat ip : ℚ)
    match rest1 with
    | '.' :: r2 =>
      let fp := r2.takeWhile Char.isDigit
      let rest2 := r2.dropWhile Char.isDigit
      if fp = [] then none
      else
        let q := intVal + (digitsToNat fp : ℚ) / ((10 : ℚ) ^ fp.length)
        some (if neg then -q else q, rest2)
    | _ => some (if neg then -intVal else intVal, rest1)

mutual

/-- One JSON value at the head of `cs` (leading whitespace already skipped). -/
def parseVal (fuel : Nat) (cs : List Char) : Option (Json × List Char) :=
  match fuel with
  | 0 => none
  | f + 1 =>
    match cs with
    | 't' :: 'r' :: 'u' :: 'e' :: r => some (.bool true, r)
    | 'f' :: 'a' :: 'l' :: 's' :: 'e' :: r => some (.bool false, r)
    | 'n' :: 'u' :: 'l' :: 'l' :: r => some (.null, r)
    | '"' :: r =>
      match parseChars f r with
      | none => none
      | some (l, rest) => some (.str (String.mk l), rest)
    | '\x7b' :: r =>
      match skipWs r with
      | '\x7d' :: r2 => some (.obj [], r2)
      | r2 =>
        match parseMembers f r2 with
        | none => none
        | some (fs, rest) => some (.obj fs, rest)
    | '[' :: r =>
      match skipWs r with
      | ']' :: r2 => some (.arr [], r2)
      | r2 =>
        match parseItems f r2 with
        | none => none
        | some (vs, rest) => some (.arr vs, rest)
    | _ =>
      match parseNumber cs with
      | none => none
      | some (q, rest) => some (.num q, rest)

/-- Members of a JSON object, from after the opening brace (whitespace skipped),
up to and including the closing brace. -/
def parseMembers (fuel : Nat) (cs : List Char) : Option (List (String × Json) × List Char) :=
  match fuel with
  | 0 => none
  | f + 1 =>
    match cs with
    | '"' :: r =>
      match parseChars f r with
      | none => none
      | some (key, r2) =>
        match skipWs r2 with
        | ':' :: r3 =>
          match parseVal f (skipWs r3) with
          | none => none
          | some (v, r4) =>
            match skipWs r4 with
            | ',' :: r5 =>
              match parseMembers f (skipWs r5) with
              | none => none
              | some (fs, rest) => some ((String.mk key, v) :: fs, rest)
            | '\x7d' :: r5 => some ([(String.mk key, v)], r5)
            | _ => none
        | _ => none
    | _ => none

/-- Items of a JSON array, from after the opening bracket (whitespace skipped),
up to and including the closing bracket. -/
def parseItems (fuel : Nat) (cs : List Char) : Option (List Json × List Char) :=
  match fuel with
  | 0 => none
  | f + 1 =>
    match parseVal f cs with
    | none => none
    | some (v, r) =>
      match skipWs r with
      | ',' :: r2 =>
        match parseItems f (skipWs r2) with
        | none => none
        | some (vs, rest) => some (v :: vs, rest)
      | ']' :: r2 => some ([v], r2)
      | _ => none

end

/-- Python `json.loads`: the whole string must be one JSON value, up to
surrounding whitespace. The fuel is ample for every input: each two fuel
units consume at least one character. -/
def jsonLoads (s : String) : Option Json :=
  match parseVal (2 * s.length + 2) (skipWs s.toList) with
  | some (v, r) => if skipWs r = [] then some v else none
  | none => none

/-- Models `re.search` of the pattern brace dot-star brace with DOTALL:
a match, when one exists, runs from the first opening brace to the last
closing brace that lies after it (leftmost start, greedy extent). -/
def braceSubstring (s : String) : Option String :=
  let cs := s.toList
  match cs.findIdx? (fun c => c = '\x7b'), cs.reverse.findIdx? (fun c => c = '\x7d') with
  | some i, some jr =>
    let j := cs.length - 1 - jr
    if i < j then some (String.mk ((cs.drop i).take (j - i + 1))) else none
  | _, _ => none

/-- `app/models/summary.py` `ActionItem`: description required, rest optional. -/
structure ActionItem where
  description : String
  owner : Option String := none
  due_date : Option String := none

/-- `app/models/summary.py` `MeetingSummary`: `summary` required, `title`
optional, the list fields default to empty. -/
structure MeetingSummary where
  title : Option String := none
  summary : String
  key_points : List String := []
  decisions : List String := []
  action_items : List ActionItem := []
  insights : List String := []

/-- Pydantic validation of a `str` field: accepts exactly strings. -/
def asStr : Json → Option String
  | .str s => some s
  | _ => none

/-- Pydantic validation of an `Optional[str]` field: absent or null gives the
default `None`; a string is kept; anything else is a validation error. -/
def asOptStr : Option Json → Option (Option String)
  | none => some none
  | some .null => some none
  | some (.str s) => some (some s)
  | some _ => none

/-- Pydantic validation of a `List[str]` field with empty default. -/
def asStrList : Option Json → Option (List String)
  | none => some []
  | some (.arr l) => l.mapM asStr
  | some _ => none

def asActionItem : Json → Option ActionItem
  | .obj fs =>
    match dictGet fs "description" with
    | some (.str d) =>
      match asOptStr (dictGet fs "owner"), asOptStr (dictGet fs "due_date") with
      | some o, some dd => some ⟨d, o, dd⟩
      | _, _ => none
    | _ => none
  | _ => none

def asActionItemList : Option Json → Option (List ActionItem)
  | none => some []
  | some (.arr l) => l.mapM asActionItem
  | some _ => none

/-- `MeetingSummary.model_validate`: the parsed value must be a JSON object,
`summary` must be a string, the optional and list fields validate with their
defaults; unknown keys are ignored. -/
def MeetingSummary.model_validate : Json → Option MeetingSummary
  | .obj fs =>
    match asOptStr (dictGet fs "title"), dictGet fs "summary" with
    | some t, some (.str sm) =>
      match asStrList (dictGet fs "key_points"), asStrList (dictGet fs "decisions"),
            asActionItemList (dictGet fs "action_items"), asStrList (dictGet fs "insights") with
      | some kp, some dec, some ai, some ins => some ⟨t, sm, kp, dec, ai, ins⟩
      | _, _, _, _ => none
    | _, _ => none
  | _ => none

/-- One upstream chat call: either the call raises (error) or returns the
message content string. -/
structure ChatBehavior where
  primary : Except Unit String
  retryNoFormat : Except Unit String

/-- The basic summary built by `summarize_transcript` as last fallback
(`summarizer.py` lines 130-137). -/
def basicFallbackSummary (text : String) : MeetingSummary :=
  { title := some "Transcrição Processada"
    summary := if 500 < text.length then text.take 500 ++ "..." else text
    key_points := ["Não foi possível extrair pontos principais automaticamente"]
    decisions := []
    action_items := []
    insights := ["Revise a transcrição manualmente para extrair insights"] }

/-- The retry path of `summarize_transcript` (the outer `except` body,
`summarizer.py` lines 104-140): call again without `response_format`; on any
exception there or while parsing/validating, raise `ValueError`; only when the
content has no brace-delimited substring synthesize the basic summary. -/
def retryWithoutFormat (text : String) (r : Except Unit String) : Except String MeetingSummary :=
  match r with
  | .error _ => .error "Não foi possível gerar o resumo"
  | .ok content =>
    match braceSubstring content with
    | some sub =>
      match jsonLoads sub with
      | some parsed =>
        match MeetingSummary.model_validate parsed with
        | some s => .ok s
        | none => .error "Não foi possível gerar o resumo"
      | none => .error "Não foi possível gerar o resumo"
    | none => .ok (basicFallbackSummary text)

/-- `summarize_transcript` (`summarizer.py`), after configuration: the
transcript text and the behavior of the two possible chat calls determine the
result. `.error` is a raised `ValueError`; every failure inside the first
`try` block (raising call, strict parse failure, brace-extraction failure,
pydantic validation failure) falls into the retry path. -/
def summarize_transcript (text : String) (beh : ChatBehavior) : Except String MeetingSummary :=
  match beh.primary with
  | .error _ => retryWithoutFormat text beh.retryNoFormat
  | .ok content =>
    match jsonLoads content with
    | some parsed =>
      match MeetingSummary.model_validate parsed with
      | some s => .ok s
      | none => retryWithoutFormat text beh.retryNoFormat
    | none =>
      match braceSubstring content with
      | some sub =>
        match jsonLoads sub with
        | some parsed =>
          match MeetingSummary.model_validate parsed with
          | some s => .ok s
          | none => retryWithoutFormat text beh.retryNoFormat
        | none => retryWithoutFormat text beh.retryNoFormat
      | none => retryWithoutFormat text beh.retryNoFormat

def exceptIsOk {ε α : Type} : Except ε α → Bool
  | .ok _ => true
  | .error _ => false

def summaryOf : Except String MeetingSummary → Option String
  | .ok s => some s.summary
  | .error _ => none

/-- `Settings.validate_temperature` (`config.py` lines 73-82): parse the
configured value as a float — modelled as `Option ℚ`, `none` when `float(v)`
raises — defaulting to 0.2 on failure, and clamp into [0, 1]. -/
def validate_temperature (v : Option ℚ) : ℚ :=
  match v with
  | none => 1 / 5
  | some t => max 0 (min 1 t)

/-- The temperature `summarize_transcript` sends upstream (`summarizer.py`
line 30 and the two `create` calls): the explicit argument when given,
otherwise the configured `settings.summary_temperature`. -/
def sent_temperature (temperature : Option ℚ) (settings_temp : ℚ) : ℚ :=
  match temperature with
  | some t => t
  | none => settings_temp

/-- `app/models/transcript.py` `TranscriptSegment` after validation:
timestamps as rationals (the float values in the claims are exact decimals). -/
structure TranscriptSegment where
  start : Option ℚ := none
  stop : Option ℚ := none
  text : String
  speaker : Option String := none

/-- `app/models/transcript.py` `Transcript`. -/
structure Transcript where
  text : String
  language : String := "pt"
  segments : Option (List TranscriptSegment) := none
  source_path : Option String := none

/-- Python `float()` applied to an already-stripped string, for finite decimal
literals: optional sign, digits, optional fraction. Exponent forms, `inf`,
`nan` words, underscores and hex are not modelled (none occur in the claims);
`none` models a raised `ValueError`. -/
def pyFloatOfString (s : String) : Option ℚ :=
  let cs := s.toList
  let p : Bool × List Char :=
    match cs with
    | '-' :: r => (true, r)
    | '+' :: r => (false, r)
    | r => (false, r)
  let neg := p.1
  let cs1 := p.2
  let ip := cs1.takeWhile Char.isDigit
  let rest1 := cs1.dropWhile Char.isDigit
  match rest1 with
  | [] =>
    if ip = [] then none
    else some (if neg then -(digitsToNat ip : ℚ) else (digitsToNat ip : ℚ))
  | '.' :: r2 =>
    let fp := r2.takeWhile Char.isDigit
    let rest2 := r2.dropWhile Char.isDigit
    if rest2 = [] ∧ ¬(ip = [] ∧ fp = []) then
      let q := (digitsToNat ip : ℚ) + (digitsToNat fp : ℚ) / ((10 : ℚ) ^ fp.length)
      some (if neg then -q else q)
    else none
  | _ => none

/-- `TranscriptSegment.validate_timestamps` (`transcript.py` lines 12-29), a
`mode="before"` validator that never raises: `None` (an absent key or JSON
null) stays missing, numbers (and bools, which Python treats as ints) coerce
to float, strings are stripped and the case-insensitive tokens `""`, `"none"`,
`"null"`, `"nan"` mean missing, any other string goes through `float()` with
failures mapped to missing, and non-scalar values are missing. -/
def validate_timestamps (v : Option Json) : Option ℚ :=
  match v with
  | none => none
  | some .null => none
  | some (.num q) => some q
  | some (.bool b) => some (if b then 1 else 0)
  | some (.str s) =>
    let c := pyStrip s
    if c = "" ∨ lowerStr c = "none" ∨ lowerStr c = "null" ∨ lowerStr c = "nan" then none
    else pyFloatOfString c
  | some _ => none

/-- One iteration of the segment loop in `Transcript.from_verbose_json`
(`transcript.py` lines 49-77), inner `try`/`except` included. The entry must
be a dict, else `s.get` raises in both the `try` and the `except` and the
exception reaches the outer handler (`.error`). Timestamps never fail;
constructing the segment fails only when the `text` value is truthy but not a
string, and then the `except`-block retry fails on the same value. -/
def processSegment (s : Json) : Except Unit TranscriptSegment :=
  match s with
  | .obj fs =>
    match jsonOr (dictGet fs "text") (.str "") with
    | .str t =>
      .ok ⟨validate_timestamps (dictGet fs "start"), validate_timestamps (dictGet fs "end"), t, none⟩
    | _ => .error ()
  | _ => .error ()

/-- The outer `except` body of `from_verbose_json` (`transcript.py` lines
81-93): a basic transcript from `data.get("text", "Erro no processamento")`;
when that value exists but is not a string, the pydantic constructor raises
again and the exception propagates out of `from_verbose_json`. -/
def verbose_fallback (data : List (String × Json)) (fallback_language : String)
    (source_path : Option String) : Except Unit Transcript :=
  match (dictGet data "text").getD (.str "Erro no processamento") with
  | .str t => .ok ⟨t, fallback_language, none, source_path⟩
  | _ => .error ()

/-- Python `segments or None` for the accumulated segment list
(`transcript.py` line 79): an empty list becomes `None`. -/
def orNoneList (segs : List TranscriptSegment) : Option (List TranscriptSegment) :=
  match segs with
  | [] => none
  | s0 :: rest => some (s0 :: rest)

/-- `Transcript.from_verbose_json` (`transcript.py` lines 40-93). The
`segments` value, after `or []`, must be a list — a truthy non-list makes the
loop (or the `s.get` on its elements) raise into the outer handler. A thrown
segment aborts the loop into the outer handler; otherwise `text` and
`language` (each `or`-defaulted) must be strings for the pydantic constructor,
and an empty segment list is stored as `None`. -/
def from_verbose_json (data : List (String × Json)) (fallback_language : String)
    (source_path : Option String) : Except Unit Transcript :=
  match jsonOr (dictGet data "segments") (.arr []) with
  | .arr l =>
    match l.mapM processSegment with
    | .ok segs =>
      match jsonOr (dictGet data "text") (.str ""),
            jsonOr (dictGet data "language") (.str fallback_language) with
      | .str t, .str lg => .ok ⟨t, lg, orNoneList segs, source_path⟩
      | _, _ => verbose_fallback data fallback_language source_path
    | .error _ => verbose_fallback data fallback_language source_path
  | _ => verbose_fallback data fallback_language source_path

/-- Abstraction of a raw transcription-API result object as
`_process_transcription_result` observes it: `text_attr` is
`getattr(result, "text", None)` (absent attribute, raising property, or a
value), `as_dict` is what `_convert_result_to_dict` yields (its own failures
surface when a conversion property raises on access), `truthy` is the object's
boolean value and `str_repr` its `str()` representation. -/
structure APIResult where
  text_attr : Option (Except Unit Json) := none
  as_dict : Except Unit (List (String × Json)) := .ok []
  truthy : Bool := true
  str_repr : String := ""

/-- The shared `text`-extraction logic of the `srt`/`vtt` and `text`/`json`
branches (`transcriber.py` lines 148-160): take the `text` attribute when it
is a string, otherwise convert to a dict and use `data.get("text") or ""`,
which must be a string for the `Transcript` constructor. -/
def textBranch (r : APIResult) (language : String) (path : Option String) :
    Except Unit Transcript :=
  match r.text_attr with
  | some (.error e) => .error e
  | some (.ok (.str s)) => .ok ⟨s, language, none, path⟩
  | _ =>
    match r.as_dict with
    | .error e => .error e
    | .ok data =>
      match jsonOr (dictGet data "text") (.str "") with
      | .str s => .ok ⟨s, language, none, path⟩
      | _ => .error ()

inductive RespFormat where
  | text
  | json
  | verbose_json
  | srt
  | vtt
deriving DecidableEq

/-- The `try` block of `_process_transcription_result` (`transcriber.py` lines
143-160): `.error` means the processing threw. -/
def process_try (result : APIResult) (fmt : RespFormat) (language : String)
    (path : Option String) : Except Unit Transcript :=
  match fmt with
  | .verbose_json =>
    match result.as_dict with
    | .error e => .error e
    | .ok data => from_verbose_json data language path
  | _ => textBranch result language path

/-- `_process_transcription_result` (`transcriber.py` lines 136-166): when the
`try` block throws, build the fallback transcript whose text is
`str(result) if result else "Erro na transcrição"`. -/
def process_transcription_result (result : APIResult) (fmt : RespFormat)
    (language : String) (path : Option String) : Transcript :=
  match process_try result fmt language path with
  | .ok t => t
  | .error _ =>
    ⟨if result.truthy then result.str_repr else "Erro na transcrição", language, none, path⟩

/-- `_is_gpt4o_transcribe` (`transcriber.py` lines 54-56). -/
def is_gpt4o_transcribe (model : String) : Bool :=
  strStartsWith (lowerStr model) "gpt-4o-mini-transcribe"

/-- `_is_whisper_model` (`transcriber.py` lines 59-61). -/
def is_whisper_model (model : String) : Bool :=
  strStartsWith (lowerStr model) "whisper"

/-- `_validate_model_and_format` (`transcriber.py` lines 64-86): the
gpt-4o-mini family only accepts `json`/`text`; whisper models accept all five
formats of the `SupportedResponseFormat` literal; an unrecognized model
conservatively only accepts `json`/`text`. `.error` is a raised `ValueError`. -/
def validate_model_and_format (model : String) (fmt : RespFormat) : Except String Unit :=
  if is_gpt4o_transcribe model then
    if fmt = .json ∨ fmt = .text then .ok ()
    else .error "O modelo não suporta este formato; use json ou text, ou troque para whisper-1"
  else if is_whisper_model model then
    .ok ()
  else if fmt = .json ∨ fmt = .text then .ok ()
  else .error "O formato pode não ser suportado pelo modelo; use json ou text, ou escolha whisper-1"

def SUPPORTED_EXTS : List String := [".mp3", ".wav", ".m4a"]

def SUPPORTED_MIMES : List String :=
  ["audio/mpeg", "audio/wav", "audio/x-wav", "audio/mp4", "audio/x-m4a", "video/mp4"]

/-- `_detect_mime` (`transcriber.py` lines 33-35) restricted to the file's
suffix: the relevant rows of the `mimetypes` table — the three types the
module registers at import plus the standard `.mp4` mapping — with
`application/octet-stream` when the guess fails. `mimetypes` matches the
extension case-insensitively. -/
def detect_mime (suffix : String) : String :=
  if lowerStr suffix = ".mp3" then "audio/mpeg"
  else if lowerStr suffix = ".wav" then "audio/wav"
  else if lowerStr suffix = ".m4a" then "audio/mp4"
  else if lowerStr suffix = ".mp4" then "video/mp4"
  else "application/octet-stream"

/-- The format decision of `_ensure_audio` (`transcriber.py` lines 38-51) for
an existing file, as a function of the path's suffix: accept when the
lowercased suffix is a supported extension or the guessed MIME type is a
supported MIME type. -/
def ensure_audio (suffix : String) : Except String Unit :=
  if SUPPORTED_EXTS.contains (lowerStr suffix) ∨ SUPPORTED_MIMES.contains (detect_mime suffix) then
    .ok ()
  else .error "Formato de arquivo não suportado. Use .mp3, .wav ou .m4a."

/-! Helper lemmas shared by the claim theorems. -/

lemma retryWithoutFormat_no_brace (text content : String)
    (hb : braceSubstring content = none) :
    retryWithoutFormat text (.ok content) = .ok (basicFallbackSummary text) := by
  simp only [retryWithoutFormat, hb]

lemma summarize_reaches_fallback (text prim retryC : String)
    (h1 : jsonLoads prim = none) (h2 : braceSubstring prim = none)
    (h3 : braceSubstring retryC = none) :
    summarize_transcript text ⟨.ok prim, .ok retryC⟩ = .ok (basicFallbackSummary text) := by
  unfold summarize_transcript
  simp only [h1, h2]
  exact retryWithoutFormat_no_brace text retryC h3

lemma verbose_fallback_segments (data : List (String × Json)) (lang : String)
    (path : Option String) (t : Transcript)
    (h : verbose_fallback data lang path = .ok t) : t.segments = none := by
  unfold verbose_fallback at h
  split at h
  · cases h
    rfl
  · exact absurd h (by simp)

lemma orNoneList_ne_nil (segs l : List TranscriptSegment)
    (h : orNoneList segs = some l) : l ≠ [] := by
  cases segs with
  | nil => exact Option.noConfusion h
  | cons a rest =>
    have h1 : a :: rest = l := Option.some.inj h
    rw [← h1]
    simp

/-! Theorems for the claims. -/

/-- C3: the claim states that an out-of-range `temperature` argument of
`summarize_transcript` is clamped into [0, 1] before being sent upstream,
with -1 sent as 0.0 and 5 sent as 1.0. In the code the explicit argument is
forwarded unchanged: 5 is sent as 5 and -1 as -1. -/
theorem C3_counterexample :
    sent_temperature (some 5) (validate_temperature (some (1 / 5))) = 5 ∧ (5 : ℚ) ≠ 1 ∧
    sent_temperature (some (-1)) (validate_temperature (some (1 / 5))) = -1 ∧ (-1 : ℚ) ≠ 0 :=
  ⟨rfl, by norm_num, rfl, by norm_num⟩

/-- C3 amended: an explicit `temperature` argument is passed through to the
chat API unclamped; clamping into [0, 1] happens only in
`Settings.validate_temperature`, which governs the configured default used
when the argument is absent. -/
theorem C3_temperature_handling (t s : ℚ) (v : Option ℚ) :
    sent_temperature (some t) s = t ∧
    sent_temperature none s = s ∧
    0 ≤ validate_temperature v ∧ validate_temperature v ≤ 1 := by
  refine ⟨rfl, rfl, ?_, ?_⟩
  · cases v with
    | none => norm_num [validate_temperature]
    | some t => exact le_max_left 0 _
  · cases v with
    | none => norm_num [validate_temperature]
    | some t => exact max_le (by norm_num) (min_le_left 1 t)

/-- C6: for a mini/fast transcription model the validator accepts exactly the
formats `json` and `text` (rejecting `verbose_json`, `srt`, `vtt` with an
error), and for a model recognized as neither family it likewise accepts
exactly `json` and `text`. -/
theorem C6_model_format_validation (model : String) (fmt : RespFormat) :
    (is_gpt4o_transcribe model = true →
      (exceptIsOk (validate_model_and_format model fmt) = true ↔
        (fmt = .json ∨ fmt = .text))) ∧
    (is_gpt4o_transcribe model = false → is_whisper_model model = false →
      (exceptIsOk (validate_model_and_format model fmt) = true ↔
        (fmt = .json ∨ fmt = .text))) := by
  constructor
  · intro hA
    cases fmt <;> simp [validate_model_and_format, hA, exceptIsOk]
  · intro hA hW
    cases fmt <;> simp [validate_model_and_format, hA, hW, exceptIsOk]

theorem C6_witness :
    exceptIsOk (validate_model_and_format "gpt-4o-mini-transcribe" RespFormat.json) = true ∧
    exceptIsOk (validate_model_and_format "gpt-4o-mini-transcribe" RespFormat.verbose_json) ≠ true ∧
    exceptIsOk (validate_model_and_format "my-model" RespFormat.srt) ≠ true := by
  refine ⟨?_, ?_, ?_⟩
  · exact ((C6_model_format_validation "gpt-4o-mini-transcribe" RespFormat.json).1
      (by decide)).2 (Or.inl rfl)
  · intro h
    rcases ((C6_model_format_validation "gpt-4o-mini-transcribe" RespFormat.verbose_json).1
      (by decide)).1 h with h1 | h1 <;> exact RespFormat.noConfusion h1
  · intro h
    rcases ((C6_model_format_validation "my-model" RespFormat.srt).2
      (by decide) (by decide)).1 h with h1 | h1 <;> exact RespFormat.noConfusion h1

/-- C10: any existing file whose lowercased suffix is `.mp4` passes the audio
format check, because its guessed MIME type `video/mp4` is on the MIME
allow-list, even though `.mp4` is not among the supported extensions. -/
theorem C10_mp4_accepted (suffix : String) (h : lowerStr suffix = ".mp4") :
    exceptIsOk (ensure_audio suffix) = true ∧
    SUPPORTED_EXTS.contains (lowerStr suffix) = false ∧
    detect_mime suffix = "video/mp4" ∧
    SUPPORTED_MIMES.contains "video/mp4" = true := by
  have hd : detect_mime suffix = "video/mp4" := by
    unfold detect_mime
    rw [h]
    decide
  refine ⟨?_, ?_, hd, by decide⟩
  · unfold ensure_audio
    rw [h, hd]
    decide
  · rw [h]
    decide

theorem C10_witness :
    exceptIsOk (ensure_audio ".mp4") = true ∧
    SUPPORTED_EXTS.contains (lowerStr ".mp4") = false :=
  ⟨(C10_mp4_accepted ".mp4" (by decide)).1, (C10_mp4_accepted ".mp4" (by decide)).2.1⟩

/-- C1: the claim states that for every transcript and every upstream behavior
an exception raised during the retry-without-constraint call triggers the
terminal fallback and never propagates. In the code the `except` around the
retry call re-raises a `ValueError`: when both calls raise, the call raises
instead of returning a summary. -/
theorem C1_counterexample :
    summarize_transcript "t" ⟨.error (), .error ()⟩ =
      .error "Não foi possível gerar o resumo" := rfl

/-- C1 amended: an exception during the retry-without-constraint call, or a
parse/validation failure on its response, propagates as a raised `ValueError`;
the terminal fallback is reached — and `summarize_transcript` returns without
raising — exactly when the retry call succeeds with content containing no
brace-delimited substring (besides every successfully parsed tier). -/
theorem C1_no_raise_when_retry_content_braceless (text : String) (beh : ChatBehavior)
    (content : String) (hr : beh.retryNoFormat = .ok content)
    (hb : braceSubstring content = none) :
    exceptIsOk (summarize_transcript text beh) = true := by
  have hretry : retryWithoutFormat text beh.retryNoFormat = .ok (basicFallbackSummary text) := by
    rw [hr]
    exact retryWithoutFormat_no_brace text content hb
  unfold summarize_transcript
  repeat' split
  all_goals first
    | rfl
    | (rw [hretry]; rfl)

theorem C1_witness :
    exceptIsOk (summarize_transcript "t" ⟨.ok "x", .ok "y"⟩) = true :=
  C1_no_raise_when_retry_content_braceless "t" ⟨.ok "x", .ok "y"⟩ "y" rfl rfl

/-- C5: when the primary response is not JSON at all (strict parse fails and
no brace-delimited substring exists) and the retry response has no
brace-delimited substring either, `summarize_transcript` returns, without
raising, the synthesized summary: a ≤500-character (plus ellipsis) preview of
the transcript as `summary`, exactly one fallback notice in `key_points`,
exactly one notice in `insights`, and empty `decisions`/`action_items`. -/
theorem C5_terminal_fallback_content (text prim retryC : String)
    (h1 : jsonLoads prim = none) (h2 : braceSubstring prim = none)
    (h3 : braceSubstring retryC = none) :
    summarize_transcript text ⟨.ok prim, .ok retryC⟩ =
      .ok { title := some "Transcrição Processada",
            summary := if 500 < text.length then text.take 500 ++ "..." else text,
            key_points := ["Não foi possível extrair pontos principais automaticamente"],
            decisions := [],
            action_items := [],
            insights := ["Revise a transcrição manualmente para extrair insights"] } :=
  summarize_reaches_fallback text prim retryC h1 h2 h3

theorem C5_witness :
    summarize_transcript "short transcript" ⟨.ok "not json", .ok "still not json"⟩ =
      .ok { title := some "Transcrição Processada",
            summary := "short transcript",
            key_points := ["Não foi possível extrair pontos principais automaticamente"],
            decisions := [],
            action_items := [],
            insights := ["Revise a transcrição manualmente para extrair insights"] } :=
  C5_terminal_fallback_content "short transcript" "not json" "still not json" rfl rfl rfl

/-- C2: the claim states that every `MeetingSummary` returned by
`summarize_transcript` has a non-empty `summary` on every tier including the
terminal fallback. With an empty transcript and non-JSON responses on both
calls, the terminal fallback returns `summary = ""`. -/
theorem C2_counterexample :
    summaryOf (summarize_transcript "" ⟨.ok "x", .ok "y"⟩) = some "" := rfl

/-- C2 amended: on the terminal fallback tier the `summary` equals the
≤500-character (plus ellipsis) preview of the transcript text, which is
non-empty whenever the transcript text is non-empty; emptiness is not
enforced by the model, so an empty transcript (or a validated response with
an empty `summary` string) yields an empty summary. -/
theorem C2_fallback_summary_nonempty (text prim retryC : String)
    (h1 : jsonLoads prim = none) (h2 : braceSubstring prim = none)
    (h3 : braceSubstring retryC = none) (ht : text ≠ "") :
    summaryOf (summarize_transcript text ⟨.ok prim, .ok retryC⟩) =
      some (if 500 < text.length then text.take 500 ++ "..." else text) ∧
    (if 500 < text.length then text.take 500 ++ "..." else text) ≠ "" := by
  constructor
  · rw [summarize_reaches_fallback text prim retryC h1 h2 h3]
    rfl
  · by_cases h : 500 < text.length
    · simp only [if_pos h]
      intro he
      have hlen : (text.take 500 ++ "...").length = 0 := by rw [he]; rfl
      have hdots : ("..." : String).length = 3 := rfl
      rw [String.length_append, hdots] at hlen
      omega
    · simpa [if_neg h] using ht

theorem C2_witness :
    summaryOf (summarize_transcript "t" ⟨.ok "x", .ok "y"⟩) = some "t" ∧ ("t" : String) ≠ "" :=
  C2_fallback_summary_nonempty "t" "x" "y" rfl rfl rfl (by decide)

/-- C7: for chat content wrapping a single JSON object in prose, strict
parsing fails, the best-effort step recovers the brace-delimited substring,
and the extractor produces a `MeetingSummary` with `summary = "ok"` — for any
behavior of the (never reached) retry call. -/
theorem C7_prose_wrapped_json_recovered :
    jsonLoads "Here you go:\n\x7b\"summary\": \"ok\", \"key_points\": []\x7d\nhope that helps" =
      none ∧
    braceSubstring
        "Here you go:\n\x7b\"summary\": \"ok\", \"key_points\": []\x7d\nhope that helps" =
      some "\x7b\"summary\": \"ok\", \"key_points\": []\x7d" ∧
    ∀ r : Except Unit String,
      summarize_transcript "any transcript"
        ⟨.ok "Here you go:\n\x7b\"summary\": \"ok\", \"key_points\": []\x7d\nhope that helps", r⟩ =
      .ok { title := none, summary := "ok", key_points := [], decisions := [],
            action_items := [], insights := [] } :=
  ⟨rfl, rfl, fun _ => rfl⟩

/-- C8: the verbose input with segments
`[(start 0, end 2.5, text "hi"), (start "2.5", end "nan", text "bye")]`
normalizes to exactly two segments; the second has `start = 2.5` (numeric-like
string coerced), `end` missing (`"nan"` is treated as missing) and
`text = "bye"` unchanged. -/
theorem C8_verbose_segment_coercion :
    from_verbose_json
        [("segments", Json.arr
          [Json.obj [("start", Json.num 0), ("end", Json.num (5 / 2)), ("text", Json.str "hi")],
           Json.obj [("start", Json.str "2.5"), ("end", Json.str "nan"),
                     ("text", Json.str "bye")]])]
        "pt" none =
      .ok { text := "", language := "pt",
            segments := some
              [{ start := some 0, stop := some (5 / 2), text := "hi", speaker := none },
               { start := some (5 / 2), stop := none, text := "bye", speaker := none }],
            source_path := none } := by
  have h25 : validate_timestamps (some (Json.str "2.5")) = some (5 / 2 : ℚ) := by
    show some (((2 : ℕ) : ℚ) + ((5 : ℕ) : ℚ) / (10 : ℚ) ^ (1 : ℕ)) = some (5 / 2 : ℚ)
    norm_num
  show Except.ok
      { text := "", language := "pt",
        segments := some
          [{ start := some 0, stop := some (5 / 2), text := "hi", speaker := none },
           { start := validate_timestamps (some (Json.str "2.5")), stop := none,
             text := "bye", speaker := none }],
        source_path := none } =
    Except.ok
      ({ text := "", language := "pt",
         segments := some
           [{ start := some 0, stop := some (5 / 2), text := "hi", speaker := none },
            { start := some (5 / 2), stop := none, text := "bye", speaker := none }],
         source_path := none } : Transcript)
  rw [h25]

/-- C9: `from_verbose_json` never returns a transcript carrying an empty
segment list: when the input's segment sequence is empty or absent the result
has `segments = none`, and whenever `segments` is present it is non-empty. -/
theorem C9_segments_present_iff_nonempty :
    (∀ data lang path t l, from_verbose_json data lang path = .ok t →
        t.segments = some l → l ≠ []) ∧
    (∀ data lang path t,
        (dictGet data "segments" = none ∨ dictGet data "segments" = some (Json.arr [])) →
        from_verbose_json data lang path = .ok t → t.segments = none) := by
  constructor
  · intro data lang path t l h hs
    unfold from_verbose_json at h
    split at h
    · split at h
      · split at h
        · cases h
          exact orNoneList_ne_nil _ l hs
        · rw [verbose_fallback_segments _ _ _ _ h] at hs
          simp at hs
      · rw [verbose_fallback_segments _ _ _ _ h] at hs
        simp at hs
    · rw [verbose_fallback_segments _ _ _ _ h] at hs
      simp at hs
  · intro data lang path t hseg h
    have hs : jsonOr (dictGet data "segments") (Json.arr []) = Json.arr [] := by
      rcases hseg with h1 | h1 <;> rw [h1] <;> rfl
    unfold from_verbose_json at h
    rw [hs] at h
    change (match jsonOr (dictGet data "text") (Json.str ""),
                  jsonOr (dictGet data "language") (Json.str lang) with
      | Json.str t2, Json.str lg => Except.ok ⟨t2, lg, none, path⟩
      | _, _ => verbose_fallback data lang path) = Except.ok t at h
    split at h
    · cases h
      rfl
    · exact verbose_fallback_segments _ _ _ _ h

theorem C9_witness :
    from_verbose_json [("text", Json.str "oi")] "pt" none =
      .ok { text := "oi", language := "pt", segments := none, source_path := none } ∧
    (Transcript.segments
      { text := "oi", language := "pt", segments := none, source_path := none }) = none :=
  ⟨rfl, C9_segments_present_iff_nonempty.2 [("text", Json.str "oi")] "pt" none
    { text := "oi", language := "pt", segments := none, source_path := none }
    (Or.inl rfl) rfl⟩

/-- C4: the claim states that whenever processing of a raw result `r` throws,
the normalizer returns a transcript whose text is `str(r)`. The code uses
`str(result) if result else "Erro na transcrição"`: for a falsy result object
whose `text` property raises, the text is the fixed error string, not
`str(r)`. -/
theorem C4_counterexample :
    process_try
        { text_attr := some (.error ()), as_dict := .ok [], truthy := false,
          str_repr := "<TranscriptionResult>" } .text "pt" (some "a.mp3") = .error () ∧
    (process_transcription_result
        { text_attr := some (.error ()), as_dict := .ok [], truthy := false,
          str_repr := "<TranscriptionResult>" } .text "pt" (some "a.mp3")).text =
      "Erro na transcrição" ∧
    ("Erro na transcrição" : String) ≠ "<TranscriptionResult>" :=
  ⟨rfl, rfl, by decide⟩

/-- C4 amended: when processing throws, `_process_transcription_result`
returns (never raises) a transcript with the fallback language, no segments,
and text `str(r)` when `r` is truthy — but the fixed string
`"Erro na transcrição"` when `r` is falsy. -/
theorem C4_fallback_transcript_shape (r : APIResult) (fmt : RespFormat) (lang : String)
    (path : Option String) (h : process_try r fmt lang path = .error ()) :
    process_transcription_result r fmt lang path =
      { text := if r.truthy then r.str_repr else "Erro na transcrição",
        language := lang, segments := none, source_path := path } := by
  unfold process_transcription_result
  rw [h]

theorem C4_witness :
    process_transcription_result
        { text_attr := some (.error ()), as_dict := .ok [], truthy := true,
          str_repr := "<R>" } .text "pt" (some "b.mp3") =
      { text := "<R>", language := "pt", segments := none, source_path := some "b.mp3" } :=
  C4_fallback_transcript_shape
    { text_attr := some (.error ()), as_dict := .ok [], truthy := true, str_repr := "<R>" }
    .text "pt" (some "b.mp3") rfl

end ClareIA
